import Mathlib

/-
Verification development for the MichaelCuebas/CPU_Simulator repository
(src/cs3339_project3/CPU.cpp and src/cs3339_project3/Stats.cpp).

The pipeline hazard tracker (class Stats) and the processor driver
(class CPU) are embedded shallowly: every stateful C++ method becomes a
pure Lean function from the state structure to the state structure, and
32-bit unsigned arithmetic is carried out on Nat with explicit reduction
modulo 2^32 where the C++ would wrap.
-/

namespace CPUSim

/-! ## Pipeline stage constants

Modelled from the spec: the stage indices and the stage count live in
Stats.h, which is not part of src/.  The spec fixes eight stages
(Fetch1, Fetch2, Decode, Execute1, Execute2, Mem1, Mem2, Writeback) and
the startup cost PIPESTAGES - 1 = 7; the column header printed by
Stats::showPipe ("IF1 IF2 *ID* EXE1 EXE2 MEM1 MEM2 WB") fixes the order. -/

def IF1 : Nat := 0
def IF2 : Nat := 1
def ID : Nat := 2
def EXE1 : Nat := 3
def EXE2 : Nat := 4
def MEM1 : Nat := 5
def MEM2 : Nat := 6
def WB : Nat := 7
def PIPESTAGES : Nat := 8

/-- The destination-register slots of the eight pipeline stages:
field pK is resultReg[K] of the C++ `int resultReg[PIPESTAGES]`.
The sentinel for "no pending destination" is -1. -/
structure PipeSlots where
  p0 : Int
  p1 : Int
  p2 : Int
  p3 : Int
  p4 : Int
  p5 : Int
  p6 : Int
  p7 : Int
deriving DecidableEq, Repr

/-- Read resultReg[i]; all reads performed by the C++ use i < 8. -/
def getSlot : Nat → PipeSlots → Int
  | 0, v => v.p0
  | 1, v => v.p1
  | 2, v => v.p2
  | 3, v => v.p3
  | 4, v => v.p4
  | 5, v => v.p5
  | 6, v => v.p6
  | 7, v => v.p7
  | _, _ => -1

/-- Write resultReg[i].  An index outside 0..7 would be an out-of-bounds
array write in the C++ (undefined behavior); it is modelled as a no-op
and is unreachable from the program's call sites (Stats::flush is only
invoked with count = 2, and all fixed stage indices are below 8). -/
def setSlot : Nat → Int → PipeSlots → PipeSlots
  | 0, x, v => { v with p0 := x }
  | 1, x, v => { v with p1 := x }
  | 2, x, v => { v with p2 := x }
  | 3, x, v => { v with p3 := x }
  | 4, x, v => { v with p4 := x }
  | 5, x, v => { v with p5 := x }
  | 6, x, v => { v with p6 := x }
  | 7, x, v => { v with p7 := x }
  | _, _, v => v

/-- The loop `for (i = WB; i > IF1; i--) resultReg[i] = resultReg[i-1]`
shared by Stats::clock and Stats::flush: every slot takes the value of
its predecessor; slot IF1 is left in place. -/
def shiftUp (v : PipeSlots) : PipeSlots :=
  ⟨v.p0, v.p0, v.p1, v.p2, v.p3, v.p4, v.p5, v.p6⟩

/-- The array effect of Stats::clock: the full shift followed by
`resultReg[IF1] = -1`. -/
def clockSlots (v : PipeSlots) : PipeSlots :=
  setSlot IF1 (-1) (shiftUp v)

/-- The array effect of Stats::bubble: the loop
`for (i = WB; i > EXE1; i--) resultReg[i] = resultReg[i-1]` followed by
`resultReg[EXE1] = -1`; the front-end slots IF1, IF2, ID are untouched. -/
def bubbleSlots (v : PipeSlots) : PipeSlots :=
  ⟨v.p0, v.p1, v.p2, -1, v.p3, v.p4, v.p5, v.p6⟩

/-- The state of the hazard tracker (class Stats): the six counters and
the stage-slot array. -/
structure Stats where
  cycles : Nat
  flushes : Nat
  bubbles : Nat
  memops : Nat
  branches : Nat
  taken : Nat
  resultReg : PipeSlots
deriving DecidableEq, Repr

/-- The Stats constructor: cycles = PIPESTAGES - 1 (pipeline startup
cost), every other counter 0, every slot -1. -/
def statsInit : Stats :=
  { cycles := PIPESTAGES - 1, flushes := 0, bubbles := 0,
    memops := 0, branches := 0, taken := 0,
    resultReg := ⟨-1, -1, -1, -1, -1, -1, -1, -1⟩ }

/-- Stats::clock: cycles++, then the full-array shift injecting -1 at IF1. -/
def Stats.clock (s : Stats) : Stats :=
  { s with cycles := s.cycles + 1, resultReg := clockSlots s.resultReg }

/-- Stats::bubble: bubbles++, cycles++, then the partial shift of the
EXE1..WB range injecting -1 at EXE1. -/
def Stats.bubble (s : Stats) : Stats :=
  { s with bubbles := s.bubbles + 1, cycles := s.cycles + 1,
           resultReg := bubbleSlots s.resultReg }

/-- n successive Stats::bubble calls (the inner loop of registerSrc,
`for (j = i; j < WB; j++) bubble()`, runs a count of WB - i fixed at
loop entry). -/
def Stats.bubbleN : Nat → Stats → Stats
  | 0, s => s
  | n + 1, s => Stats.bubbleN n (Stats.bubble s)

/-- One iteration of the scan loop of Stats::registerSrc at stage index
i: `if (resultReg[i] == r) for (j = i; j < WB; j++) bubble()`. -/
def Stats.srcStep (r : Int) (i : Nat) (s : Stats) : Stats :=
  if getSlot i s.resultReg = r then Stats.bubbleN (WB - i) s else s

/-- Stats::registerSrc: returns immediately when r == 0, otherwise runs
the scan loop `for (i = EXE1; i < WB; i++)` over the current (mutating)
slot array. -/
def Stats.registerSrc (r : Int) (s : Stats) : Stats :=
  if r = 0 then s
  else Stats.srcStep r MEM2 (Stats.srcStep r MEM1
         (Stats.srcStep r EXE2 (Stats.srcStep r EXE1 s)))

/-- Stats::registerDest: `resultReg[ID] = r`. -/
def Stats.registerDest (r : Int) (s : Stats) : Stats :=
  { s with resultReg := setSlot ID r s.resultReg }

/-- The body of Stats::flush carrying the outer loop index j: each
iteration does cycles++, flushes++, the full shift, and then
`resultReg[i] = -1` where i is the OUTER loop index (the inner shift
loop shadows i, so after it ends the assignment uses the outer one). -/
def Stats.flushAux : Nat → Nat → Stats → Stats
  | _, 0, s => s
  | j, n + 1, s =>
      Stats.flushAux (j + 1) n
        { s with cycles := s.cycles + 1, flushes := s.flushes + 1,
                 resultReg := setSlot j (-1) (shiftUp s.resultReg) }

/-- Stats::flush(count): the outer loop `for (i = 0; i < count; i++)`. -/
def Stats.flush (count : Nat) (s : Stats) : Stats :=
  Stats.flushAux 0 count s

/-- Modelled from the spec: Stats::countMemOp is declared in Stats.h
(not in src/); it increments the memory-operation counter by 1. -/
def Stats.countMemOp (s : Stats) : Stats :=
  { s with memops := s.memops + 1 }

/-- Modelled from the spec: Stats::countBranch is declared in Stats.h
(not in src/); it increments the branch counter by 1. -/
def Stats.countBranch (s : Stats) : Stats :=
  { s with branches := s.branches + 1 }

/-- Modelled from the spec: Stats::countTaken is declared in Stats.h
(not in src/); it increments the taken-branch counter by 1. -/
def Stats.countTaken (s : Stats) : Stats :=
  { s with taken := s.taken + 1 }

/-! ## Processor core driver (class CPU, CPU.cpp) -/

/-- Register-index constants used by CPU::decode.  REG_ZERO and REG_RA
are the architectural indices 0 and 31; REG_HILO is modelled from the
spec (CPU.h is not in src/): the high/low accumulator pair is a single
pseudo-register index distinct from the 32 general-purpose indices. -/
def REG_ZERO : Nat := 0

def REG_RA : Nat := 31

def REG_HILO : Nat := 32

/-- The ALU operation tags set up by CPU::decode (enum in CPU.h). -/
inductive AluOp where
  | ADD
  | AND
  | SHF_L
  | SHF_R
  | CMP_LT
  | MUL
  | DIV
deriving DecidableEq, Repr

/-- Reinterpret an unsigned 32-bit value (a Nat below 2^32) as a signed
two's complement integer. -/
def toInt32 (a : Nat) : Int :=
  if a < 2 ^ 31 then (a : Int) else (a : Int) - 2 ^ 32

/-- Reduce an integer into the unsigned 32-bit range. -/
def toUInt32 (x : Int) : Nat :=
  (x % 2 ^ 32).toNat

/-- The C++ `simm = ((signed)uimm << 16) >> 16` sign extension of a
16-bit immediate, represented as the equivalent unsigned 32-bit word. -/
def signExt16 (uimm : Nat) : Nat :=
  if uimm < 2 ^ 15 then uimm else uimm + (2 ^ 32 - 2 ^ 16)

/-- Modelled from the spec: the Arithmetic Unit (class ALU, not in
src/) is a pure function from an operation tag and two operands to a
result; the operations are the usual MIPS ones selected by decode
(add, bitwise and, logical left shift, arithmetic right shift, signed
compare, multiply, divide), on 32-bit wrapping arithmetic. -/
def aluOpFn (op : AluOp) (a b : Nat) : Nat :=
  match op with
  | .ADD => (a + b) % 2 ^ 32
  | .AND => Nat.land a b
  | .SHF_L => (a <<< b) % 2 ^ 32
  | .SHF_R => toUInt32 ((toInt32 a).fdiv (2 ^ b))
  | .CMP_LT => if toInt32 a < toInt32 b then 1 else 0
  | .MUL => toUInt32 (toInt32 a * toInt32 b)
  | .DIV => if toInt32 b = 0 then 0 else toUInt32 ((toInt32 a).tdiv (toInt32 b))

/-- Modelled from the spec: the widened upper/lower halves the ALU
exposes after a multiply or divide (ALU::getUpper / ALU::getLower,
not in src/): for MUL the high and low words of the 64-bit product,
for DIV the remainder (upper) and quotient (lower). -/
def aluWide (op : AluOp) (a b : Nat) : Nat × Nat :=
  match op with
  | .MUL => (toUInt32 ((toInt32 a * toInt32 b).fdiv (2 ^ 32)),
             toUInt32 (toInt32 a * toInt32 b))
  | .DIV => if toInt32 b = 0 then (0, 0)
            else (toUInt32 ((toInt32 a).tmod (toInt32 b)),
                  toUInt32 ((toInt32 a).tdiv (toInt32 b)))
  | _ => (0, 0)

/-- Pointwise function update, used for the register file and the data
memory (both are plain arrays in the C++). -/
def upd {α : Type} (f : Nat → α) (k : Nat) (v : α) : Nat → α :=
  fun i => if i = k then v else f i

/-- Instruction field extraction, CPU::decode lines 76-84.  The masks
`and 0x1f`, `and 0x3f`, `and 0xffff`, `and 0x3ffffff` are written as
reduction modulo the corresponding power of two. -/
def opcodeOf (i : Nat) : Nat := i >>> 26

def rsOf (i : Nat) : Nat := (i >>> 21) % 32

def rtOf (i : Nat) : Nat := (i >>> 16) % 32

def rdOf (i : Nat) : Nat := (i >>> 11) % 32

def shamtOf (i : Nat) : Nat := (i >>> 6) % 32

def functOf (i : Nat) : Nat := i % 64

def uimmOf (i : Nat) : Nat := i % 2 ^ 16

def addrOf (i : Nat) : Nat := i % 2 ^ 26

/-- The trap request code, `addr & 0xf`. -/
def trapReq (i : Nat) : Nat := addrOf i % 16

/-- The jump target `(pc & 0xf0000000) | addr << 2`: the top four bits
of pc kept, the rest replaced; the bitwise or of the two disjoint bit
ranges equals their sum since addr << 2 < 2^28. -/
def jumpTarget (pc i : Nat) : Nat :=
  (pc / 2 ^ 28) * 2 ^ 28 + addrOf i * 4

/-- The branch target `pc + (simm << 2)` in wrapping 32-bit arithmetic. -/
def branchTarget (pc i : Nat) : Nat :=
  (pc + (signExt16 (uimmOf i) * 4) % 2 ^ 32) % 2 ^ 32

/-- The state of the processor driver (class CPU) together with the
external collaborators it owns or consumes: the data memory (a
word-addressed store, modelled from the spec since Memory is not in
src/) and the stream of integers the `cin` of trap request 5 reads
(modelled from the spec's console input; an exhausted stream reads 0).
The C++ leaves instr, destReg, the control signals and the ALU
latches uninitialized until first assignment; the model gives them
zero/false defaults in initCPU. -/
structure CPUState where
  pc : Nat
  regFile : Nat → Nat
  hi : Nat
  lo : Nat
  instr : Nat
  instructions : Nat
  stop : Bool
  writeDest : Bool
  destReg : Nat
  opIsLoad : Bool
  opIsStore : Bool
  opIsMultDiv : Bool
  aluOp : AluOp
  aluSrc1 : Nat
  aluSrc2 : Nat
  storeData : Nat
  aluOut : Nat
  writeData : Nat
  aluHi : Nat
  aluLo : Nat
  stats : Stats
  dMem : Nat → Nat
  input : List Nat

/-- CPU::fetch: `instr = iMem.loadWord(pc); pc = pc + 4;` with the
program counter wrapping as a uint32_t.  The instruction memory is a
word-addressed map from byte addresses (Memory is not in src/;
loadWord yields the stored 32-bit word). -/
def fetch (iMem : Nat → Nat) (s : CPUState) : CPUState :=
  { s with instr := iMem s.pc, pc := (s.pc + 4) % 2 ^ 32 }

/-- The control-signal resets at the top of CPU::decode (lines 86-91):
writeDest, opIsLoad, opIsStore, opIsMultDiv cleared, aluOp defaulted to
ADD, storeData zeroed; destReg is deliberately not among them. -/
def decodeReset (s : CPUState) : CPUState :=
  { s with writeDest := false, opIsLoad := false, opIsStore := false,
           opIsMultDiv := false, aluOp := AluOp.ADD, storeData := 0 }

/-- CPU::decode: the control-signal resets followed by the switch over
opcode (and funct, and the trap request code).  Every case is the
line-by-line translation of CPU.cpp lines 86-298; in the bne case the
C++ writes `istats.countBranch()`, an identifier that can only resolve
to the stats member for the file to compile, so it is translated as
stats.countBranch().  Note that the beq/bne `if` guards only the pc
update (the C++ has no braces), that the lui case never assigns
destReg, and that the only case that sets stop besides trap request
0xa is the unimplemented-trap default; the unimplemented-instruction
defaults of the two switches print a diagnostic and change nothing. -/
def decode (s : CPUState) : CPUState :=
  if opcodeOf s.instr = 0x00 then
    (if functOf s.instr = 0x00 then
      -- sll
      { decodeReset s with writeDest := true, destReg := rdOf s.instr, stats := Stats.registerSrc (rsOf s.instr : Int) (Stats.registerDest (rdOf s.instr : Int) (decodeReset s).stats), aluOp := AluOp.SHF_L, aluSrc1 := s.regFile (rsOf s.instr), aluSrc2 := shamtOf s.instr }
    else if functOf s.instr = 0x03 then
      -- sra
      { decodeReset s with writeDest := true, destReg := rdOf s.instr, stats := Stats.registerSrc (rsOf s.instr : Int) (Stats.registerDest (rdOf s.instr : Int) (decodeReset s).stats), aluOp := AluOp.SHF_R, aluSrc1 := s.regFile (rsOf s.instr), aluSrc2 := shamtOf s.instr }
    else if functOf s.instr = 0x08 then
      -- jr
      { decodeReset s with pc := s.regFile (rsOf s.instr), stats := Stats.flush 2 (decodeReset s).stats }
    else if functOf s.instr = 0x10 then
      -- mfhi
      { decodeReset s with writeDest := true, destReg := rdOf s.instr, stats := Stats.registerSrc (REG_HILO : Int) (Stats.registerDest (rdOf s.instr : Int) (decodeReset s).stats), aluOp := AluOp.ADD, aluSrc1 := s.hi, aluSrc2 := s.regFile REG_ZERO }
    else if functOf s.instr = 0x12 then
      -- mflo
      { decodeReset s with writeDest := true, destReg := rdOf s.instr, stats := Stats.registerSrc (REG_HILO : Int) (Stats.registerDest (rdOf s.instr : Int) (decodeReset s).stats), aluOp := AluOp.ADD, aluSrc1 := s.lo, aluSrc2 := s.regFile REG_ZERO }
    else if functOf s.instr = 0x18 then
      -- mult
      { decodeReset s with opIsMultDiv := true, stats := Stats.registerSrc (rtOf s.instr : Int) (Stats.registerSrc (rsOf s.instr : Int) (Stats.registerDest (REG_HILO : Int) (decodeReset s).stats)), aluOp := AluOp.MUL, aluSrc1 := s.regFile (rsOf s.instr), aluSrc2 := s.regFile (rtOf s.instr) }
    else if functOf s.instr = 0x1a then
      -- div
      { decodeReset s with opIsMultDiv := true, stats := Stats.registerSrc (rtOf s.instr : Int) (Stats.registerSrc (rsOf s.instr : Int) (Stats.registerDest (REG_HILO : Int) (decodeReset s).stats)), aluOp := AluOp.DIV, aluSrc1 := s.regFile (rsOf s.instr), aluSrc2 := s.regFile (rtOf s.instr) }
    else if functOf s.instr = 0x21 then
      -- addu
      { decodeReset s with writeDest := true, destReg := rdOf s.instr, stats := Stats.registerSrc (rtOf s.instr : Int) (Stats.registerSrc (rsOf s.instr : Int) (Stats.registerDest (rdOf s.instr : Int) (decodeReset s).stats)), aluOp := AluOp.ADD, aluSrc1 := s.regFile (rsOf s.instr), aluSrc2 := s.regFile (rtOf s.instr) }
    else if functOf s.instr = 0x23 then
      -- subu: adds the two's complement negation of regFile[rt]
      { decodeReset s with writeDest := true, destReg := rdOf s.instr, stats := Stats.registerSrc (rtOf s.instr : Int) (Stats.registerSrc (rsOf s.instr : Int) (Stats.registerDest (rdOf s.instr : Int) (decodeReset s).stats)), aluOp := AluOp.ADD, aluSrc1 := s.regFile (rsOf s.instr), aluSrc2 := (2 ^ 32 - s.regFile (rtOf s.instr)) % 2 ^ 32 }
    else if functOf s.instr = 0x2a then
      -- slt (the source performs no registerDest call here)
      { decodeReset s with writeDest := true, destReg := rdOf s.instr, stats := Stats.registerSrc (rtOf s.instr : Int) (Stats.registerSrc (rsOf s.instr : Int) (decodeReset s).stats), aluOp := AluOp.CMP_LT, aluSrc1 := s.regFile (rsOf s.instr), aluSrc2 := s.regFile (rtOf s.instr) }
    else
      -- unimplemented funct: cerr diagnostic only, no state change
      decodeReset s)
  else if opcodeOf s.instr = 0x02 then
    -- j
    { decodeReset s with writeDest := false, pc := jumpTarget s.pc s.instr, stats := Stats.flush 2 (decodeReset s).stats }
  else if opcodeOf s.instr = 0x03 then
    -- jal: links pc (already incremented by fetch) into REG_RA
    { decodeReset s with writeDest := true, destReg := REG_RA, stats := Stats.flush 2 (Stats.registerDest (REG_RA : Int) (decodeReset s).stats), aluOp := AluOp.ADD, aluSrc1 := s.pc, aluSrc2 := s.regFile REG_ZERO, pc := jumpTarget s.pc s.instr }
  else if opcodeOf s.instr = 0x04 then
    -- beq: the if guards only the pc update; countTaken and flush(2)
    -- run unconditionally
    { decodeReset s with pc := if s.regFile (rsOf s.instr) = s.regFile (rtOf s.instr) then branchTarget s.pc s.instr else s.pc, stats := Stats.flush 2 (Stats.countTaken (Stats.registerSrc (rtOf s.instr : Int) (Stats.registerSrc (rsOf s.instr : Int) (Stats.countBranch (decodeReset s).stats)))) }
  else if opcodeOf s.instr = 0x05 then
    -- bne: same shape as beq with the negated condition
    { decodeReset s with pc := if s.regFile (rsOf s.instr) = s.regFile (rtOf s.instr) then s.pc else branchTarget s.pc s.instr, stats := Stats.flush 2 (Stats.countTaken (Stats.registerSrc (rtOf s.instr : Int) (Stats.registerSrc (rsOf s.instr : Int) (Stats.countBranch (decodeReset s).stats)))) }
  else if opcodeOf s.instr = 0x09 then
    -- addiu
    { decodeReset s with writeDest := true, destReg := rtOf s.instr, stats := Stats.registerSrc (rsOf s.instr : Int) (Stats.registerDest (rtOf s.instr : Int) (decodeReset s).stats), aluOp := AluOp.ADD, aluSrc1 := s.regFile (rsOf s.instr), aluSrc2 := signExt16 (uimmOf s.instr) }
  else if opcodeOf s.instr = 0x0c then
    -- andi
    { decodeReset s with writeDest := true, destReg := rtOf s.instr, stats := Stats.registerSrc (rsOf s.instr : Int) (Stats.registerDest (rtOf s.instr : Int) (decodeReset s).stats), aluOp := AluOp.AND, aluSrc1 := s.regFile (rsOf s.instr), aluSrc2 := uimmOf s.instr }
  else if opcodeOf s.instr = 0x0f then
    -- lui: reports rt as destination to the tracker but never assigns
    -- destReg, which keeps its value from the previous instruction
    { decodeReset s with writeDest := true, stats := Stats.registerDest (rtOf s.instr : Int) (decodeReset s).stats, aluOp := AluOp.SHF_L, aluSrc1 := signExt16 (uimmOf s.instr), aluSrc2 := 16 }
  else if opcodeOf s.instr = 0x1a then
    -- trap, dispatching on addr & 0xf
    (if trapReq s.instr = 0x0 then decodeReset s
     else if trapReq s.instr = 0x1 then decodeReset s
     else if trapReq s.instr = 0x5 then
       -- cin >> regFile[rt]: the read lands directly in the register
       -- file, with no zero-register guard (a uint32_t extraction wraps)
       { decodeReset s with regFile := upd s.regFile (rtOf s.instr) (s.input.headD 0 % 2 ^ 32), input := s.input.tail }
     else if trapReq s.instr = 0xa then
       { decodeReset s with stop := true }
     else
       -- unimplemented trap: cerr diagnostic and stop = true
       { decodeReset s with stop := true })
  else if opcodeOf s.instr = 0x23 then
    -- lw
    { decodeReset s with opIsLoad := true, writeDest := true, destReg := rtOf s.instr, stats := Stats.registerSrc (rsOf s.instr : Int) (Stats.registerDest (rtOf s.instr : Int) (Stats.countMemOp (decodeReset s).stats)), aluOp := AluOp.ADD, aluSrc1 := s.regFile (rsOf s.instr), aluSrc2 := signExt16 (uimmOf s.instr) }
  else if opcodeOf s.instr = 0x2b then
    -- sw
    { decodeReset s with opIsStore := true, storeData := s.regFile (rtOf s.instr), stats := Stats.registerSrc (rsOf s.instr : Int) (Stats.registerSrc (rtOf s.instr : Int) (Stats.countMemOp (decodeReset s).stats)), aluOp := AluOp.ADD, aluSrc1 := s.regFile (rsOf s.instr), aluSrc2 := signExt16 (uimmOf s.instr) }
  else
    -- unimplemented opcode: cerr diagnostic only, no state change
    decodeReset s

/-- CPU::execute: `aluOut = alu.op(aluOp, aluSrc1, aluSrc2)`; for a
multiply or divide the ALU also latches the widened halves. -/
def execute (s : CPUState) : CPUState :=
  match s.aluOp with
  | .MUL => { s with aluOut := aluOpFn s.aluOp s.aluSrc1 s.aluSrc2,
                     aluHi := (aluWide s.aluOp s.aluSrc1 s.aluSrc2).1,
                     aluLo := (aluWide s.aluOp s.aluSrc1 s.aluSrc2).2 }
  | .DIV => { s with aluOut := aluOpFn s.aluOp s.aluSrc1 s.aluSrc2,
                     aluHi := (aluWide s.aluOp s.aluSrc1 s.aluSrc2).1,
                     aluLo := (aluWide s.aluOp s.aluSrc1 s.aluSrc2).2 }
  | _ => { s with aluOut := aluOpFn s.aluOp s.aluSrc1 s.aluSrc2 }

/-- CPU::mem: loads set writeData from the data memory at aluOut,
otherwise writeData = aluOut; stores write storeData to aluOut. -/
def memStage (s : CPUState) : CPUState :=
  let s1 := if s.opIsLoad then { s with writeData := s.dMem s.aluOut }
            else { s with writeData := s.aluOut }
  if s.opIsStore then { s1 with dMem := upd s1.dMem s1.aluOut s1.storeData }
  else s1

/-- CPU::writeback: commits writeData to regFile[destReg] unless
destReg is 0 or writeDest is unset; a multiply/divide commits the ALU
latches to hi and lo. -/
def writeback (s : CPUState) : CPUState :=
  let s1 := if s.writeDest = true ∧ 0 < s.destReg
            then { s with regFile := upd s.regFile s.destReg s.writeData }
            else s
  if s.opIsMultDiv then { s1 with hi := s.aluHi, lo := s.aluLo } else s1

/-- One iteration of the loop body of CPU::run: instructions++, then
fetch, decode, execute, mem, writeback.  No call to Stats::clock occurs
anywhere in the loop (or anywhere else in CPU.cpp). -/
def step (iMem : Nat → Nat) (s : CPUState) : CPUState :=
  writeback (memStage (execute (decode
    (fetch iMem { s with instructions := s.instructions + 1 }))))

/-- CPU::run: `while (!stop)` around the step, given enough fuel. -/
def run (iMem : Nat → Nat) : Nat → CPUState → CPUState
  | 0, s => s
  | n + 1, s => if s.stop then s else run iMem n (step iMem s)

/-- The CPU constructor: all registers 0 except gp = 0x10008000 and
sp = 0x10000000 + the data memory size; hi = lo = 0; instructions = 0;
stop = false.  The fields the C++ leaves uninitialized get
zero/false defaults here. -/
def initCPU (pc0 dMemSize : Nat) (dMem0 : Nat → Nat) (inp : List Nat) :
    CPUState :=
  { pc := pc0,
    regFile := upd (upd (fun _ => 0) 28 0x10008000)
                 29 ((0x10000000 + dMemSize) % 2 ^ 32),
    hi := 0, lo := 0, instr := 0, instructions := 0, stop := false,
    writeDest := false, destReg := 0, opIsLoad := false,
    opIsStore := false, opIsMultDiv := false, aluOp := AluOp.ADD,
    aluSrc1 := 0, aluSrc2 := 0, storeData := 0, aluOut := 0,
    writeData := 0, aluHi := 0, aluLo := 0,
    stats := statsInit, dMem := dMem0, input := inp }

/-- Division as performed by the `% Taken` line of
CPU::printFinalStats: the IEEE float division `100.0 * taken /
branches` yields a non-finite value when the denominator is zero,
represented here as none; a nonzero denominator yields the exact
ratio. -/
def divOrNone (a b : ℚ) : Option ℚ :=
  if b = 0 then none else some (a / b)

/-- The `% Taken` line of CPU::printFinalStats:
`100.0 * stats.getTaken() / stats.getBranches()`, computed
unconditionally -- the source has no guard on the branch count. -/
def percentTakenLine (st : Stats) : Option ℚ :=
  divOrNone (100 * (st.taken : ℚ)) (st.branches : ℚ)

/-! ## Concrete machine states and programs used by the theorems -/

/-- A freshly constructed CPU with start pc 0, an empty data memory and
no console input. -/
def someCPU : CPUState := initCPU 0 0 (fun _ => 0) []

/-- A state about to decode `beq $t0, $t1, 4` (instruction word
0x11090004: opcode 4, rs = 8, rt = 9) with regFile[8] = 1 and
regFile[9] = 2, so the branch condition does not hold. -/
def stBeqNT : CPUState :=
  { someCPU with instr := 0x11090004,
                 regFile := upd (upd someCPU.regFile 8 1) 9 2 }

/-- A two-instruction program: `addiu $t0, $zero, 5` (0x24080005) at
address 0 and the stop trap (0x6800000a) at address 4.  It has no
register dependency and no control transfer. -/
def iMemC2 : Nat → Nat :=
  fun a => if a = 0 then 0x24080005 else if a = 4 then 0x6800000a else 0

/-- The final state of running iMemC2 from a fresh CPU. -/
def runC2 : CPUState := run iMemC2 5 (initCPU 0 0 (fun _ => 0) [])

/-- A tracker state whose scan range holds a pending write to register
5 at two stage positions, EXE2 and MEM2. -/
def stC3c : Stats :=
  { statsInit with resultReg := ⟨-1, -1, -1, -1, 5, -1, 5, -1⟩ }

/-- A tracker state whose scan range holds a pending write to register
5 at exactly one stage position, EXE2. -/
def stC3w : Stats :=
  { statsInit with resultReg := ⟨-1, -1, -1, -1, 5, -1, -1, -1⟩ }

/-- A state about to decode an instruction with the unsupported
top-level opcode 0x3f (word 0xFC000000). -/
def sC5b : CPUState := { someCPU with instr := 0xFC000000 }

/-- A state about to decode a trap with the unsupported request code 2
(word 0x68000002). -/
def sC5c : CPUState := { someCPU with instr := 0x68000002 }

/-- The list of opcodes the decode switch has a case for. -/
def knownOpcodes : List Nat :=
  [0x00, 0x02, 0x03, 0x04, 0x05, 0x09, 0x0c, 0x0f, 0x1a, 0x23, 0x2b]

/-- The list of funct codes the opcode-0 switch has a case for. -/
def knownFuncts : List Nat :=
  [0x00, 0x03, 0x08, 0x10, 0x12, 0x18, 0x1a, 0x21, 0x23, 0x2a]

/-- The list of trap request codes the trap switch has a case for. -/
def knownTrapReqs : List Nat := [0x0, 0x1, 0x5, 0xa]

/-- An instruction word is the input-reading trap (opcode 0x1a, request
code 5) targeting register 0. -/
def isTrapReadTo0 (i : Nat) : Prop :=
  opcodeOf i = 0x1a ∧ trapReq i = 5 ∧ rtOf i = 0

instance (i : Nat) : Decidable (isTrapReadTo0 i) := by
  unfold isTrapReadTo0; infer_instance

/-- A program consisting only of the input-reading trap with rt = 0
(word 0x68000005). -/
def iMemC8 : Nat → Nat := fun _ => 0x68000005

/-- A fresh CPU whose console input stream holds the value 7. -/
def cC8 : CPUState := initCPU 0 0 (fun _ => 0) [7]

/-- A state about to decode `lui $t2, 0x1234` (word 0x3C0A1234, rt =
10) in which the previous destination-writing instruction left
destReg = 9, and register 9 currently holds 111. -/
def sC10 : CPUState :=
  { someCPU with instr := 0x3C0A1234, destReg := 9,
                 regFile := upd someCPU.regFile 9 111 }

/-! ## Theorems -/

/-- C1: the claim says a not-taken conditional branch leaves the flush
counter and the cycle count unchanged.  The code violates it: the beq
`if` guards only the pc update, so flush(2) runs unconditionally.
Decoding beq $t0, $t1 with regFile[8] = 1 and regFile[9] = 2 (condition
false, pc unchanged) still adds 2 flush cycles and 2 cycles. -/
theorem beq_notTaken_still_flushes :
    stBeqNT.regFile 8 ≠ stBeqNT.regFile 9 ∧
    (decode stBeqNT).pc = stBeqNT.pc ∧
    stBeqNT.stats.flushes = 0 ∧ stBeqNT.stats.cycles = 7 ∧
    (decode stBeqNT).stats.flushes = 2 ∧
    (decode stBeqNT).stats.cycles = 9 := by
  decide

/-- C7: the claim says the taken-branch counter is unchanged when the
branch condition fails.  The code violates it: countTaken() sits
outside the beq `if`, so the not-taken beq of stBeqNT still increments
taken (the branch counter is incremented once, as claimed). -/
theorem beq_notTaken_counts_taken :
    stBeqNT.regFile 8 ≠ stBeqNT.regFile 9 ∧
    stBeqNT.stats.taken = 0 ∧ stBeqNT.stats.branches = 0 ∧
    (decode stBeqNT).stats.taken = 1 ∧
    (decode stBeqNT).stats.branches = 1 := by
  decide

/-- C2: the claim says a dependency-free straight-line program retires
in instructions + 7 cycles, each retired instruction advancing the
clock by one.  The code violates it: CPU::run never invokes
Stats::clock, so running addiu followed by the stop trap (2
instructions, no hazard, no control transfer) ends with the cycle
counter still at the startup value 7 instead of 2 + 7 = 9. -/
theorem run_never_advances_clock :
    runC2.stop = true ∧ runC2.instructions = 2 ∧
    runC2.stats.bubbles = 0 ∧ runC2.stats.flushes = 0 ∧
    runC2.stats.cycles = 7 ∧
    runC2.stats.cycles ≠ runC2.instructions + 7 := by
  decide

/-- C9: recordSourceRead with register index 0 leaves the tracker
completely unchanged, whatever the slot array and counters hold. -/
theorem registerSrc_zero_noop (s : Stats) : Stats.registerSrc 0 s = s := by
  simp [Stats.registerSrc]

/-- C3 counterexample: with pending writes to register 5 at stage
positions EXE2 = 4 and MEM2 = 6, the claim predicts (WB - 4) + (WB - 6)
= 4 bubble insertions, but registerSrc inserts only 3: the bubbles
taken for the EXE2 match shift the MEM2 entry out of the scan range
before the loop reaches it. -/
theorem registerSrc_two_matches_counterexample :
    getSlot EXE2 stC3c.resultReg = 5 ∧ getSlot MEM2 stC3c.resultReg = 5 ∧
    stC3c.bubbles = 0 ∧
    (WB - EXE2) + (WB - MEM2) = 4 ∧
    (Stats.registerSrc 5 stC3c).bubbles = 3 := by
  decide

/-- C5 counterexample: the claim says an unsupported top-level opcode
halts the run.  Decoding the word 0xFC000000 (opcode 0x3f, not in the
switch) leaves stop = false: the default case only prints a
diagnostic. -/
theorem unknown_opcode_does_not_halt :
    opcodeOf sC5b.instr ∉ knownOpcodes ∧
    sC5b.stop = false ∧ (decode sC5b).stop = false := by
  decide

/-- C6 counterexample: the claim says the final-statistics report
guards the branch count being 0.  It does not: on a tracker fresh from
the constructor (branches = 0) the % Taken line evaluates
100 * taken / branches with a zero denominator. -/
theorem percentTaken_unguarded_counterexample :
    statsInit.branches = 0 ∧ percentTakenLine statsInit = none := by
  constructor
  · rfl
  · rfl

/-- C8 counterexample: the claim says register 0 holds 0 after every
executed instruction.  Executing the input-reading trap with rt = 0
(word 0x68000005) on a fresh CPU with input value 7 stores 7 straight
into register 0: the cin extraction bypasses the writeback guard. -/
theorem trap_read_writes_reg0 :
    cC8.regFile 0 = 0 ∧ (step iMemC8 cC8).regFile 0 = 7 := by
  decide

/-! ### C4: flush iterates the clock transform -/

/-- The per-iteration effect of Stats::flush on the counters, with the
array transformed exactly as Stats::clock transforms it. -/
def flushStep (s : Stats) : Stats :=
  { s with cycles := s.cycles + 1, flushes := s.flushes + 1,
           resultReg := clockSlots s.resultReg }

/-- Iteration j of the flush loop performs the clock array transform,
provided every slot below j already holds the sentinel (true from the
second iteration on): the misplaced `resultReg[j] = -1` then overwrites
a slot that the shift already filled with -1. -/
theorem flushIter_eq_clockSlots (j : Nat) (hj : 1 ≤ j) (v : PipeSlots)
    (hv : ∀ k, k < j → getSlot k v = -1) :
    setSlot j (-1) (shiftUp v) = clockSlots v := by
  have h0 : getSlot 0 v = -1 := hv 0 hj
  rcases j with _ | _ | _ | _ | _ | _ | _ | _ | j
  · exact absurd hj (by omega)
  · simp_all [setSlot, shiftUp, clockSlots, IF1, getSlot]
  · have h1 : getSlot 1 v = -1 := hv 1 (by omega)
    simp_all [setSlot, shiftUp, clockSlots, IF1, getSlot]
  · have h2 : getSlot 2 v = -1 := hv 2 (by omega)
    simp_all [setSlot, shiftUp, clockSlots, IF1, getSlot]
  · have h3 : getSlot 3 v = -1 := hv 3 (by omega)
    simp_all [setSlot, shiftUp, clockSlots, IF1, getSlot]
  · have h4 : getSlot 4 v = -1 := hv 4 (by omega)
    simp_all [setSlot, shiftUp, clockSlots, IF1, getSlot]
  · have h5 : getSlot 5 v = -1 := hv 5 (by omega)
    simp_all [setSlot, shiftUp, clockSlots, IF1, getSlot]
  · have h6 : getSlot 6 v = -1 := hv 6 (by omega)
    simp_all [setSlot, shiftUp, clockSlots, IF1, getSlot]
  · simp_all [setSlot, shiftUp, clockSlots, IF1, getSlot]

/-- The clock transform re-establishes the sentinel prefix one slot
deeper. -/
theorem getSlot_clockSlots_lt (v : PipeSlots) (j k : Nat)
    (hv : ∀ m, m < j → getSlot m v = -1) (hk : k < j + 1) :
    getSlot k (clockSlots v) = -1 := by
  rcases k with _ | _ | _ | _ | _ | _ | _ | _ | k
  · rfl
  · exact hv 0 (by omega)
  · exact hv 1 (by omega)
  · exact hv 2 (by omega)
  · exact hv 3 (by omega)
  · exact hv 4 (by omega)
  · exact hv 5 (by omega)
  · exact hv 6 (by omega)
  · rfl

/-- From any iteration index at least 1 onwards, the flush loop agrees
with iterating flushStep. -/
theorem flushAux_eq_iterate (n : Nat) :
    ∀ (j : Nat) (s : Stats), 1 ≤ j →
      (∀ k, k < j → getSlot k s.resultReg = -1) →
      Stats.flushAux j n s = flushStep^[n] s := by
  induction n with
  | zero => intro j s _ _; rfl
  | succ n ih =>
      intro j s hj hv
      have hs : setSlot j (-1) (shiftUp s.resultReg) = clockSlots s.resultReg :=
        flushIter_eq_clockSlots j hj s.resultReg hv
      have h1 : Stats.flushAux j (n + 1) s = Stats.flushAux (j + 1) n (flushStep s) := by
        show Stats.flushAux (j + 1) n { s with cycles := s.cycles + 1, flushes := s.flushes + 1, resultReg := setSlot j (-1) (shiftUp s.resultReg) } = Stats.flushAux (j + 1) n (flushStep s)
        rw [hs]
        rfl
      rw [h1,
          ih (j + 1) (flushStep s) (by omega)
            (fun k hk => getSlot_clockSlots_lt s.resultReg j k hv hk),
          ← Function.iterate_succ_apply flushStep n s]

/-- Iterating flushStep adds count to both counters and iterates the
clock array transform. -/
theorem flushStep_iterate (count : Nat) (s : Stats) :
    flushStep^[count] s =
      { s with cycles := s.cycles + count, flushes := s.flushes + count,
               resultReg := clockSlots^[count] s.resultReg } := by
  induction count generalizing s with
  | zero => rfl
  | succ n ih =>
      rw [Function.iterate_succ_apply, ih (flushStep s),
          Function.iterate_succ_apply clockSlots n s.resultReg]
      simp only [flushStep]
      congr 1 <;> omega

/-- C4: for every count, Stats::flush(count) adds count to the total
cycle count and count to the flush count, and transforms the stage-slot
array exactly as count Stats::clock calls would (clockSlots is the
array transform performed by Stats.clock): the only textual difference,
the shadowed-index assignment `resultReg[i] = -1` targeting slot i of
iteration i instead of slot IF1, always rewrites a slot the shift has
already filled with the sentinel. -/
theorem flush_iterates_clock_transform (count : Nat) (s : Stats) :
    Stats.flush count s =
      { s with cycles := s.cycles + count, flushes := s.flushes + count,
               resultReg := clockSlots^[count] s.resultReg } := by
  rcases count with _ | n
  · rfl
  · have hinv : ∀ k, k < 1 → getSlot k (flushStep s).resultReg = -1 := by
      intro k hk
      have hk0 : k = 0 := by omega
      subst hk0
      rfl
    have h3 : Stats.flush (n + 1) s = Stats.flushAux 1 n (flushStep s) := rfl
    rw [h3, flushAux_eq_iterate n 1 (flushStep s) (by omega) hinv,
        ← Function.iterate_succ_apply flushStep n s, flushStep_iterate]

/-! ### C3: bubble count of a source-register read -/

/-- C3 (amended): when exactly one stage position i of the
execute-through-writeback scan range EXE1..MEM2 holds a pending write
to register r (r a real register index, at least 1), registerSrc
inserts exactly WB - i bubbles, each adding 1 to the bubble count and 1
to the cycle count.  (With several matching positions the scan runs
over the array as mutated by the earlier bubbles and inserts fewer than
the per-position sum, see the counterexample.) -/
theorem registerSrc_unique_match (s : Stats) (r : Int) (i : Nat)
    (hr : 1 ≤ r) (hlo : EXE1 ≤ i) (hhi : i ≤ MEM2)
    (hmatch : getSlot i s.resultReg = r)
    (huniq : ∀ j, EXE1 ≤ j → j ≤ MEM2 → j ≠ i → getSlot j s.resultReg ≠ r) :
    (Stats.registerSrc r s).bubbles = s.bubbles + (WB - i) ∧
    (Stats.registerSrc r s).cycles = s.cycles + (WB - i) := by
  have hr0 : ¬(r = 0) := by omega
  have hm1 : ¬((-1 : Int) = r) := by omega
  obtain ⟨cy, fl, bu, mo, br, tk, ⟨p0, p1, p2, p3, p4, p5, p6, p7⟩⟩ := s
  simp only [EXE1, MEM2] at hlo hhi
  interval_cases i
  · have h4 := huniq 4 (by decide) (by decide) (by decide)
    have h5 := huniq 5 (by decide) (by decide) (by decide)
    have h6 := huniq 6 (by decide) (by decide) (by decide)
    simp only [getSlot] at hmatch h4 h5 h6
    simp [Stats.registerSrc, Stats.srcStep, Stats.bubbleN, Stats.bubble,
          bubbleSlots, getSlot, WB, EXE1, EXE2, MEM1, MEM2,
          hr0, hm1, hmatch, h4, h5, h6]
  · have h3 := huniq 3 (by decide) (by decide) (by decide)
    have h5 := huniq 5 (by decide) (by decide) (by decide)
    have h6 := huniq 6 (by decide) (by decide) (by decide)
    simp only [getSlot] at hmatch h3 h5 h6
    simp [Stats.registerSrc, Stats.srcStep, Stats.bubbleN, Stats.bubble,
          bubbleSlots, getSlot, WB, EXE1, EXE2, MEM1, MEM2,
          hr0, hm1, hmatch, h3, h5, h6]
  · have h3 := huniq 3 (by decide) (by decide) (by decide)
    have h4 := huniq 4 (by decide) (by decide) (by decide)
    have h6 := huniq 6 (by decide) (by decide) (by decide)
    simp only [getSlot] at hmatch h3 h4 h6
    simp [Stats.registerSrc, Stats.srcStep, Stats.bubbleN, Stats.bubble,
          bubbleSlots, getSlot, WB, EXE1, EXE2, MEM1, MEM2,
          hr0, hm1, hmatch, h3, h4, h6]
  · have h3 := huniq 3 (by decide) (by decide) (by decide)
    have h4 := huniq 4 (by decide) (by decide) (by decide)
    have h5 := huniq 5 (by decide) (by decide) (by decide)
    simp only [getSlot] at hmatch h3 h4 h5
    simp [Stats.registerSrc, Stats.srcStep, Stats.bubbleN, Stats.bubble,
          bubbleSlots, getSlot, WB, EXE1, EXE2, MEM1, MEM2,
          hr0, hm1, hmatch, h3, h4, h5]

/-- Witness for the amended C3: a pending write to register 5 at stage
EXE2 only; registerSrc inserts WB - EXE2 = 3 bubbles and 3 cycles. -/
theorem registerSrc_unique_match_witness :
    (Stats.registerSrc 5 stC3w).bubbles = stC3w.bubbles + (WB - EXE2) ∧
    (Stats.registerSrc 5 stC3w).cycles = stC3w.cycles + (WB - EXE2) := by
  refine registerSrc_unique_match stC3w 5 EXE2 (by decide) (by decide)
    (by decide) (by decide) ?_
  intro j h1 h2 h3
  simp only [EXE1, MEM2, EXE2] at h1 h2 h3
  have hj : j = 3 ∨ j = 5 ∨ j = 6 := by omega
  rcases hj with h | h | h <;> subst h <;> decide

/-! ### C6: the percentage-taken report line -/

/-- C6 (amended): the reported percentage of branches taken equals
100 times the taken count divided by the branch count whenever the
branch count is nonzero; the implementation performs the division
unconditionally, with no guard for a zero branch count (see the
counterexample for the zero case). -/
theorem percentTaken_formula (st : Stats) (h : st.branches ≠ 0) :
    percentTakenLine st =
      some (100 * (st.taken : ℚ) / (st.branches : ℚ)) := by
  unfold percentTakenLine divOrNone
  rw [if_neg (by exact_mod_cast h)]

/-- A tracker state with 2 branches of which 1 was taken. -/
def stC6w : Stats := { statsInit with branches := 2, taken := 1 }

/-- Witness for the amended C6: with 2 branches and 1 taken the line
reports 100 * 1 / 2 = 50. -/
theorem percentTaken_formula_witness :
    percentTakenLine stC6w =
      some (100 * (stC6w.taken : ℚ) / (stC6w.branches : ℚ)) :=
  percentTaken_formula stC6w (by decide)

/-! ### C5: policy for undefined opcode/function combinations -/

/-- C5 (amended): an unknown arithmetic/logic sub-operation (funct
under opcode 0) AND an unknown top-level opcode are both non-fatal: the
decode default cases print a diagnostic and leave the run state
unchanged (stop, stats, register file, pc all keep their values and the
instruction is a no-op for side effects).  Only an unsupported trap
request code halts the run. -/
theorem decode_unknown_policy (s : CPUState) :
    (opcodeOf s.instr = 0x00 → functOf s.instr ∉ knownFuncts →
       (decode s).stop = s.stop ∧ (decode s).stats = s.stats ∧
       (decode s).regFile = s.regFile ∧ (decode s).pc = s.pc ∧
       (decode s).writeDest = false ∧ (decode s).opIsStore = false ∧
       (decode s).opIsMultDiv = false) ∧
    (opcodeOf s.instr ∉ knownOpcodes →
       (decode s).stop = s.stop ∧ (decode s).stats = s.stats ∧
       (decode s).regFile = s.regFile ∧ (decode s).pc = s.pc ∧
       (decode s).writeDest = false ∧ (decode s).opIsStore = false ∧
       (decode s).opIsMultDiv = false) ∧
    (opcodeOf s.instr = 0x1a → trapReq s.instr ∉ knownTrapReqs →
       (decode s).stop = true) := by
  refine ⟨?_, ?_, ?_⟩
  · intro hop hf
    simp only [knownFuncts, List.mem_cons, List.not_mem_nil, or_false,
               not_or] at hf
    obtain ⟨hf0, hf3, hf8, hf10, hf12, hf18, hf1a, hf21, hf23, hf2a⟩ := hf
    simp [decode, decodeReset, hop, hf0, hf3, hf8, hf10, hf12, hf18,
          hf1a, hf21, hf23, hf2a]
  · intro hop
    simp only [knownOpcodes, List.mem_cons, List.not_mem_nil, or_false,
               not_or] at hop
    obtain ⟨h00, h02, h03, h04, h05, h09, h0c, h0f, h1a, h23, h2b⟩ := hop
    simp [decode, decodeReset, h00, h02, h03, h04, h05, h09, h0c, h0f,
          h1a, h23, h2b]
  · intro hop hr
    simp only [knownTrapReqs, List.mem_cons, List.not_mem_nil, or_false,
               not_or] at hr
    obtain ⟨hr0, hr1, hr5, hra⟩ := hr
    simp [decode, decodeReset, hop, hr0, hr1, hr5, hra]

/-- Witness for the amended C5: decoding the unknown opcode 0x3f leaves
stop unchanged (false), while decoding the unsupported trap request 2
sets stop. -/
theorem decode_unknown_policy_witness :
    (decode sC5b).stop = sC5b.stop ∧ (decode sC5c).stop = true :=
  ⟨((decode_unknown_policy sC5b).2.1 (by decide)).1,
   (decode_unknown_policy sC5c).2.2 (by decide) (by decide)⟩

/-! ### C8: the zero register across a full step -/

/-- CPU::execute does not touch the register file. -/
theorem execute_regFile (s : CPUState) : (execute s).regFile = s.regFile := by
  cases hs : s.aluOp <;> simp [execute, hs]

/-- CPU::mem does not touch the register file. -/
theorem memStage_regFile (s : CPUState) :
    (memStage s).regFile = s.regFile := by
  simp only [memStage]
  split_ifs <;> rfl

/-- CPU::writeback never writes register 0: the commit is guarded by
destReg being positive. -/
theorem writeback_regFile_zero (s : CPUState) (h : s.regFile 0 = 0) :
    (writeback s).regFile 0 = 0 := by
  unfold writeback
  split_ifs with h1 h2 h3
  · simp only [upd]
    rw [if_neg (by omega)]
    exact h
  · simp only [upd]
    rw [if_neg (by omega)]
    exact h
  · exact h
  · exact h

/-- CPU::decode writes the register file only in the trap-request-5
case (cin lands directly in regFile[rt]); any other instruction leaves
register 0 alone. -/
theorem decode_regFile_zero (s : CPUState) (h : s.regFile 0 = 0)
    (hn : ¬ isTrapReadTo0 s.instr) :
    (decode s).regFile 0 = 0 := by
  by_cases h00 : opcodeOf s.instr = 0x00
  · -- opcode 0: every funct case leaves the register file alone
    by_cases f00 : functOf s.instr = 0x00
    · simp [decode, decodeReset, h00, f00, h]
    by_cases f03 : functOf s.instr = 0x03
    · simp [decode, decodeReset, h00, f00, f03, h]
    by_cases f08 : functOf s.instr = 0x08
    · simp [decode, decodeReset, h00, f00, f03, f08, h]
    by_cases f10 : functOf s.instr = 0x10
    · simp [decode, decodeReset, h00, f00, f03, f08, f10, h]
    by_cases f12 : functOf s.instr = 0x12
    · simp [decode, decodeReset, h00, f00, f03, f08, f10, f12, h]
    by_cases f18 : functOf s.instr = 0x18
    · simp [decode, decodeReset, h00, f00, f03, f08, f10, f12, f18, h]
    by_cases f1a : functOf s.instr = 0x1a
    · simp [decode, decodeReset, h00, f00, f03, f08, f10, f12, f18, f1a, h]
    by_cases f21 : functOf s.instr = 0x21
    · simp [decode, decodeReset, h00, f00, f03, f08, f10, f12, f18, f1a, f21, h]
    by_cases f23 : functOf s.instr = 0x23
    · simp [decode, decodeReset, h00, f00, f03, f08, f10, f12, f18, f1a, f21, f23, h]
    by_cases f2a : functOf s.instr = 0x2a
    · simp [decode, decodeReset, h00, f00, f03, f08, f10, f12, f18, f1a, f21, f23, f2a, h]
    simp [decode, decodeReset, h00, f00, f03, f08, f10, f12, f18, f1a, f21, f23, f2a, h]
  by_cases h02 : opcodeOf s.instr = 0x02
  · simp [decode, decodeReset, h00, h02, h]
  by_cases h03 : opcodeOf s.instr = 0x03
  · simp [decode, decodeReset, h00, h02, h03, h]
  by_cases h04 : opcodeOf s.instr = 0x04
  · simp [decode, decodeReset, h00, h02, h03, h04, h]
  by_cases h05 : opcodeOf s.instr = 0x05
  · simp [decode, decodeReset, h00, h02, h03, h04, h05, h]
  by_cases h09 : opcodeOf s.instr = 0x09
  · simp [decode, decodeReset, h00, h02, h03, h04, h05, h09, h]
  by_cases h0c : opcodeOf s.instr = 0x0c
  · simp [decode, decodeReset, h00, h02, h03, h04, h05, h09, h0c, h]
  by_cases h0f : opcodeOf s.instr = 0x0f
  · simp [decode, decodeReset, h00, h02, h03, h04, h05, h09, h0c, h0f, h]
  by_cases h1a : opcodeOf s.instr = 0x1a
  · -- trap: only request 5 touches the register file, never index 0
    by_cases r5 : trapReq s.instr = 5
    · have hrt0 : ¬(0 = rtOf s.instr) := fun hc => hn ⟨h1a, r5, hc.symm⟩
      simp [decode, decodeReset, h00, h02, h03, h04, h05, h09, h0c, h0f, h1a, r5, upd, hrt0, h]
    by_cases r0 : trapReq s.instr = 0x0
    · simp [decode, decodeReset, h00, h02, h03, h04, h05, h09, h0c, h0f, h1a, r5, r0, h]
    by_cases r1 : trapReq s.instr = 0x1
    · simp [decode, decodeReset, h00, h02, h03, h04, h05, h09, h0c, h0f, h1a, r5, r0, r1, h]
    by_cases ra : trapReq s.instr = 0xa
    · simp [decode, decodeReset, h00, h02, h03, h04, h05, h09, h0c, h0f, h1a, r5, r0, r1, ra, h]
    simp [decode, decodeReset, h00, h02, h03, h04, h05, h09, h0c, h0f, h1a, r5, r0, r1, ra, h]
  by_cases h23 : opcodeOf s.instr = 0x23
  · simp [decode, decodeReset, h00, h02, h03, h04, h05, h09, h0c, h0f, h1a, h23, h]
  by_cases h2b : opcodeOf s.instr = 0x2b
  · simp [decode, decodeReset, h00, h02, h03, h04, h05, h09, h0c, h0f, h1a, h23, h2b, h]
  simp [decode, decodeReset, h00, h02, h03, h04, h05, h09, h0c, h0f, h1a, h23, h2b, h]

/-- C8 (amended): register 0 holds 0 after every executed instruction
except the input-reading trap (opcode 0x1a, request code 5) with
rt = 0, which stores the console value straight into register 0 (see
the counterexample).  Every write that goes through writeback is
discarded when the destination index is 0. -/
theorem reg0_zero_after_step (iMem : Nat → Nat) (s : CPUState)
    (h : s.regFile 0 = 0) (hn : ¬ isTrapReadTo0 (iMem s.pc)) :
    (step iMem s).regFile 0 = 0 := by
  unfold step
  apply writeback_regFile_zero
  rw [memStage_regFile, execute_regFile]
  exact decode_regFile_zero _ h hn

/-- A program consisting only of addiu $t0, $zero, 5. -/
def iMemW : Nat → Nat := fun _ => 0x24080005

/-- Witness for the amended C8: one addiu step on a fresh CPU leaves
register 0 at 0. -/
theorem reg0_zero_after_step_witness :
    (step iMemW someCPU).regFile 0 = 0 :=
  reg0_zero_after_step iMemW someCPU (by decide) (by decide)

/-! ### C10: lui commits through the stale destReg -/

/-- C10: decoding lui (opcode 0x0f) reports rt to the hazard tracker as
the pending destination (slot ID) but leaves the driver's destReg field
untouched, so after execute/mem/writeback the shifted immediate lands
in whatever register destReg still names from the most recent prior
destination-writing instruction -- discarded when that index is 0 --
and every other register (in particular rt itself, when distinct from
the stale destReg) is unchanged. -/
theorem lui_commits_to_stale_destReg (s : CPUState)
    (hop : opcodeOf s.instr = 0x0f) :
    (decode s).destReg = s.destReg ∧
    (decode s).writeDest = true ∧
    getSlot ID (decode s).stats.resultReg = (rtOf s.instr : Int) ∧
    (0 < s.destReg →
      (writeback (memStage (execute (decode s)))).regFile s.destReg =
        aluOpFn AluOp.SHF_L (signExt16 (uimmOf s.instr)) 16) ∧
    (s.destReg = 0 →
      (writeback (memStage (execute (decode s)))).regFile = s.regFile) ∧
    (∀ k, k ≠ s.destReg →
      (writeback (memStage (execute (decode s)))).regFile k =
        s.regFile k) := by
  refine ⟨?_, ?_, ?_, ?_, ?_, ?_⟩
  · simp [decode, decodeReset, hop]
  · simp [decode, decodeReset, hop]
  · simp [decode, decodeReset, hop, Stats.registerDest, setSlot, getSlot, ID]
  · intro hpos
    simp [decode, decodeReset, hop, execute, memStage, writeback, upd,
          hpos, Nat.pos_iff_ne_zero]
  · intro hzero
    simp [decode, decodeReset, hop, execute, memStage, writeback, hzero]
  · intro k hk
    by_cases hpos : 0 < s.destReg
    · simp [decode, decodeReset, hop, execute, memStage, writeback, upd, hk, hpos]
    · simp [decode, decodeReset, hop, execute, memStage, writeback, upd, hk, hpos]

/-- Witness for C10: decoding lui $t2, 0x1234 (rt = 10) with a stale
destReg of 9 commits 0x12340000 to register 9 and leaves register 10
(the instruction's own rt) unchanged. -/
theorem lui_commits_to_stale_destReg_witness :
    (decode sC10).destReg = 9 ∧
    (writeback (memStage (execute (decode sC10)))).regFile 9 =
      aluOpFn AluOp.SHF_L (signExt16 (uimmOf sC10.instr)) 16 ∧
    (writeback (memStage (execute (decode sC10)))).regFile 10 =
      sC10.regFile 10 := by
  obtain ⟨h1, h2, h3, h4, h5, h6⟩ :=
    lui_commits_to_stale_destReg sC10 (by decide)
  exact ⟨h1, h4 (by decide), h6 10 (by decide)⟩

end CPUSim
